import Mathlib

/-!
# Verification of the simple-hmac-auth server verifier

A shallow embedding of `src/Server.js` of the simple-hmac-auth repository:
the `SimpleHMACAuth` class, whose methods `authenticate`, `_getApiKey`,
`_getRawBody` and `_getSecretForKey` are translated below as pure Lean
functions.  Node platform primitives that the class calls but does not
define (`url.parse`, `querystring.parse`, `new Date(...)` parsing,
`Date.prototype.toUTCString`, number formatting) and the repository's
`sign`/`canonicalize` modules (imported by `Server.js`) are abstracted as
fields of a `Platform` structure, so every theorem quantifies over them.

JavaScript values that can appear as rejection values (the argument of
`reject(...)`) are modelled by `ErrValue`: `undefined`, `null`, strings,
and plain objects with the fields the source actually constructs
(`message`, optional `code`, `details`, `time`).  A JS `Date` that parses
to `NaN` (an Invalid Date) is modelled as `Option.none`; the JS comparison
`NaN > x` is `false`, which the timestamp check below reproduces by
skipping the rejection when the parse is `none`.
-/

namespace SimpleHMACAuth

/-- A rejection object constructed by `Server.js`: `message` always,
`code`/`details`/`time` only on some paths. -/
structure ErrObj where
  message : String
  code : Option String := none
  details : Option String := none
  time : Option String := none
deriving DecidableEq, Repr

/-- A JavaScript value that can be passed to `reject(...)`:
`undefined`, `null`, a string, or a rejection object. -/
inductive ErrValue where
  | undefined : ErrValue
  | null : ErrValue
  | str : String → ErrValue
  | obj : ErrObj → ErrValue
deriving DecidableEq, Repr

/-- JavaScript truthiness of an `ErrValue` (used by the `if (error || ...)`
test inside the `_getSecretForKey` callback). -/
def truthy : ErrValue → Bool
  | .undefined => false
  | .null => false
  | .str s => !(s == "")
  | .obj _ => true

/-- The `code` field of a rejection value, when it is an object that has one. -/
def errCode : ErrValue → Option String
  | .obj o => o.code
  | _ => none

/-- The inbound HTTP request object.  `headers` is the Node header map
(lower-cased names); `query` is the optional `request.query` property;
`rawBody`/`streamData` feed `_getRawBody`; the remaining fields are the
annotations `authenticate` writes (`body`, `authenticated`, `apiKey`,
`secret`, `signature`, `signatureExpected`).  `extra` stands for every
other property of the JS request object, which the class never touches. -/
structure Request where
  method : String
  url : String
  headers : List (String × String)
  query : Option (List (String × String))
  rawBody : Option String
  streamData : String
  body : Option String
  authenticated : Bool
  apiKey : Option String
  secret : Option String
  signature : Option String
  signatureExpected : Option String
  extra : String
deriving DecidableEq, Repr

/-- Property lookup in a JS object modelled as an association list:
`hlookup k m = some v` iff `m.hasOwnProperty(k)` with value `v`. -/
def hlookup (key : String) : List (String × String) → Option String
  | [] => none
  | (k, v) :: rest => if k = key then some v else hlookup key rest

/-- Node / repository functions external to `Server.js`, abstracted:
`parseDate` is `new Date(s)` to epoch milliseconds (`none` = Invalid
Date); `urlPathname`/`urlQuery` are `url.parse(u).pathname` / `.query`
(`none` = no query component, i.e. `null`); `parseQueryString` is
`querystring.parse`; `canonicalize` and `sign` are the repository's
`canonicalize(method, pathname, query, headers, data)` and
`sign(canonical, secret, algorithm)`; `algorithms` is the supported
algorithm list exported by `sign.js`; `toUTCString` renders a time as
`Date.prototype.toUTCString` does. -/
structure Platform where
  parseDate : String → Option Int
  urlPathname : String → String
  urlQuery : String → Option String
  parseQueryString : String → List (String × String)
  canonicalize : String → String → Option String → List (String × String) → Option String → String
  sign : String → String → String → String
  algorithms : List String
  toUTCString : Int → String

/-- The outcome of `authenticate`: the promise resolves with
`{apiKey, secret, signature}` or rejects with an `ErrValue`. -/
inductive AuthResult where
  | resolved : String → String → String → AuthResult
  | rejected : ErrValue → AuthResult
deriving DecidableEq, Repr

/-- The third argument of `authenticate` in JS: `undefined`, a body
string, or the literal `true` sentinel asking the server to drain the
body itself. -/
inductive BodyArg where
  | undefined : BodyArg
  | str : String → BodyArg
  | sentinelTrue : BodyArg
deriving DecidableEq, Repr

/-- `_getRawBody`: resolves with `request.rawBody` when that is neither
`undefined` nor `null`, otherwise with the concatenated stream data.
It never rejects. -/
def getRawBody (r : Request) : String :=
  match r.rawBody with
  | some b => b
  | none => r.streamData

/-- `_getApiKey`: the `x-api-key` header when present; otherwise the
`apiKey` member of `request.query` when the request has a `query`
property, else of `querystring.parse(url.parse(request.url).query)`. -/
def getApiKey (P : Platform) (r : Request) : Option String :=
  match hlookup "x-api-key" r.headers with
  | some v => some v
  | none =>
    let query :=
      match r.query with
      | some q => q
      | none =>
        match P.urlQuery r.url with
        | some qs => P.parseQueryString qs
        | none => []
    hlookup "apiKey" query

/-- Rejection for a missing API key (`authenticate`, code `API_KEY_MISSING`). -/
def apiKeyMissingError : ErrValue :=
  .obj { message := "Missing API Key", code := some "API_KEY_MISSING" }

/-- Rejection substituted by `authenticate` when `_getSecretForKey` rejected
with `undefined` (code `INTERNAL_ERROR_SECRET_DISCOVERY`). -/
def internalSecretError (apiKey : String) : ErrValue :=
  .obj { message := "Internal failure while attempting to locate secret for API key \"" ++ apiKey ++ "\"",
         code := some "INTERNAL_ERROR_SECRET_DISCOVERY" }

/-- Rejection for a secret resolved as `undefined` (code `API_KEY_UNRECOGNIZED`). -/
def unrecognizedKeyError (apiKey : String) : ErrValue :=
  .obj { message := "Unrecognized API key: " ++ apiKey,
         code := some "API_KEY_UNRECOGNIZED" }

/-- Rejection for a missing `authorization` header. -/
def authMissingError : ErrValue :=
  .obj { message := "Missing authorization. Please sign all incoming requests with the \x27authorization\x27 header.",
         code := some "AUTHORIZATION_HEADER_MISSING" }

/-- Rejection for a missing `date` header. -/
def dateMissingError : ErrValue :=
  .obj { message := "Missing timestamp. Please timestamp all incoming requests by including \x27date\x27 header.",
         code := some "DATE_HEADER_MISSING" }

/-- Rejection for a stale timestamp (code `DATE_HEADER_INVALID`, carrying
the server's current time). -/
def dateInvalidError (dateHeader nowString : String) : ErrValue :=
  .obj { message := "Timestamp is too old. Recieved: \"" ++ dateHeader ++ "\" current time: \"" ++ nowString ++ "\"",
         code := some "DATE_HEADER_INVALID",
         time := some nowString }

/-- Rejection for an authorization header with fewer than three
space-separated components. -/
def authFormatError (authHeader : String) : ErrValue :=
  .obj { message := "Authorization header is improperly formatted: \"" ++ authHeader ++ "\"",
         details := some "It should look like: \"signature sha256 a42d7b09a929b997aa8e6973bdbd5ca94326cbffc3d06a557d9ed36c6b80d4ff\"",
         code := some "AUTHORIZATION_HEADER_INVALID" }

/-- Rejection for an authorization header whose first component is not the
literal `signature`. -/
def authLabelError (authHeader : String) : ErrValue :=
  .obj { message := "Authorization header is improperly formatted: \"" ++ authHeader ++ "\"",
         details := some "It should look like: \"signature hmac-sha256 a42d7b09a929b997aa8e6973bdbd5ca94326cbffc3d06a557d9ed36c6b80d4ff\"",
         code := some "AUTHORIZATION_HEADER_INVALID" }

/-- Rejection for an unsupported HMAC algorithm name. -/
def algInvalidError (algorithm : String) (algorithms : List String) : ErrValue :=
  .obj { message := "Authorization header send invalid algorithm: \"" ++ algorithm ++
           "\". The only supported hmac algorithms are: \"" ++ String.intercalate "\", \"" algorithms ++ "\"",
         code := some "HMAC_ALGORITHM_INVALID" }

/-- Rejection for a signature mismatch. -/
def signatureInvalidError : ErrValue :=
  .obj { message := "Signature is invalid.", code := some "SIGNATURE_INVALID" }

/-- The rejection of `_getSecretForKey` when no `secretForKey` delegate is
configured.  Note: it has `message` and `details` but no `code`. -/
def missingDelegateError : ErrValue :=
  .obj { message := "Missing secretForKey function",
         details := some "Please implement a \x27secretForKey\x27 delegate function" }

/-- The rejection of `_getSecretForKey` when the timer fires.
`secondsText` is the platform's decimal rendering of
`settings.secretForKeyTimeout / 1000`. -/
def secretTimeoutError (apiKey secondsText : String) : ErrValue :=
  .obj { message := "Internal failure while attempting to locate secret for API key \"" ++ apiKey ++
           "\": secretForKey has timed out after " ++ secondsText ++ " seconds",
         code := some "INTERNAL_ERROR_SECRET_TIMEOUT" }

/-- Splitting a character list at every occurrence of `sep`, keeping empty
segments, as JavaScript `String.prototype.split` does with a single-character
separator. -/
def splitCharAux (sep : Char) : List Char → List (List Char)
  | [] => [[]]
  | c :: rest =>
    let r := splitCharAux sep rest
    if c = sep then [] :: r
    else
      match r with
      | [] => [[c]]
      | seg :: segs => (c :: seg) :: segs

/-- JavaScript `s.split(sep)` for a single-character separator: splits at
every occurrence, keeping empty segments (`"a  b".split(" ")` is
`["a", "", "b"]`, `"".split(" ")` is `[""]`). -/
def splitChar (sep : Char) (s : String) : List String :=
  (splitCharAux sep s.data).map String.mk

/-- The `try/catch` around `await this._getSecretForKey(apiKey)` together
with the `secret === undefined` test in `authenticate`: a rejection with
`undefined` becomes `INTERNAL_ERROR_SECRET_DISCOVERY`, any other rejection
value is re-raised unchanged, and a resolution with `undefined` becomes
`API_KEY_UNRECOGNIZED`. -/
def mapSecretOutcome (apiKey : String) : Except ErrValue (Option String) → Except ErrValue String
  | .error e => .error (if e = .undefined then internalSecretError apiKey else e)
  | .ok none => .error (unrecognizedKeyError apiKey)
  | .ok (some s) => .ok s

/-- The body-acquisition prologue of `authenticate`: when the `data`
argument is the literal `true`, drain the raw body via `_getRawBody` and
store it on `request.body`; otherwise pass `data` through. -/
def resolveBody (r : Request) (data : BodyArg) : Request × Option String :=
  match data with
  | .sentinelTrue => ({ r with body := some (getRawBody r) }, some (getRawBody r))
  | .str s => (r, some s)
  | .undefined => (r, none)

/-- `authenticate(request, data)` from `Server.js`, as a pure function of
the platform `P`, the configured `settings.permittedTimestampSkew`, the
current time `now` (epoch ms), the settled outcome `gsfk apiKey` of
`await this._getSecretForKey(apiKey)`, the request, and the `data`
argument.  Returns the request with its annotations written, paired with
the promise's settlement. -/
def authenticate (P : Platform) (skew now : Int)
    (gsfk : String → Except ErrValue (Option String))
    (req : Request) (data : BodyArg) : Request × AuthResult :=
  match resolveBody { req with authenticated := false } data with
  | (r1, dataOpt) =>
    match getApiKey P r1 with
    | none => (r1, .rejected apiKeyMissingError)
    | some apiKey =>
      let r2 := { r1 with apiKey := some apiKey }
      match mapSecretOutcome apiKey (gsfk apiKey) with
      | .error e => (r2, .rejected e)
      | .ok secret =>
        let r3 := { r2 with secret := some secret }
        match hlookup "authorization" r3.headers with
        | none => (r3, .rejected authMissingError)
        | some authHeader =>
          match hlookup "date" r3.headers with
          | none => (r3, .rejected dateMissingError)
          | some dateHeader =>
            let stale :=
              match P.parseDate dateHeader with
              | some requestTime => decide (now - requestTime > skew)
              | none => false
            if stale then
              (r3, .rejected (dateInvalidError dateHeader (P.toUTCString now)))
            else
              match splitChar ' ' authHeader with
              | lbl :: alg :: presented :: _ =>
                if lbl ≠ "signature" then
                  (r3, .rejected (authLabelError authHeader))
                else if P.algorithms.contains alg = false then
                  (r3, .rejected (algInvalidError alg P.algorithms))
                else
                  let canonical := P.canonicalize r3.method (P.urlPathname r3.url)
                    (P.urlQuery r3.url) r3.headers dataOpt
                  let calculated := P.sign canonical secret alg
                  let r4 := { r3 with signature := some calculated,
                                      signatureExpected := some calculated }
                  if presented ≠ calculated then
                    (r4, .rejected signatureInvalidError)
                  else
                    ({ r4 with authenticated := true }, .resolved apiKey secret presented)
              | _ => (r3, .rejected (authFormatError authHeader))

/-!
## The secret-resolution race

`_getSecretForKey` wraps the user delegate in a promise raced against a
`setTimeout` timer.  Its settlement attempts are modelled as a sequence of
`GsfkEvent`s in the order the JS event loop delivers them: the timer
firing, the delegate invoking the callback, or the delegate's returned
promise settling.  `setTimeout` schedules the timer once, so a run's event
sequence holds at most one `timeout` event, and holds one whenever nothing
cleared the timer first; since JS promises latch on their first
settlement, the promise's value is decided by the first event alone.
-/

/-- One settlement attempt reaching the `_getSecretForKey` promise. -/
inductive GsfkEvent where
  | timeout : GsfkEvent
  | callbackSettle : ErrValue → Option String → GsfkEvent
  | promiseResolve : Option String → GsfkEvent
  | promiseReject : ErrValue → GsfkEvent
deriving DecidableEq, Repr

/-- The settlement an individual event would impose, per `_getSecretForKey`:
the timer rejects with the timeout error; the callback rejects with its
`error` argument when that is truthy or the secret is `undefined`, else
resolves with the secret; the returned promise's settlement is forwarded. -/
def eventSettlement (apiKey secondsText : String) :
    GsfkEvent → Except ErrValue (Option String)
  | .timeout => .error (secretTimeoutError apiKey secondsText)
  | .callbackSettle e s => if truthy e ∨ s = none then .error e else .ok s
  | .promiseResolve s => .ok s
  | .promiseReject e => .error e

/-- One step of the promise's latch: an event settles the promise (and is
counted) only when no earlier event already settled it. -/
def settleStep (f : GsfkEvent → Except ErrValue (Option String))
    (acc : Option (Except ErrValue (Option String)) × Nat) (e : GsfkEvent) :
    Option (Except ErrValue (Option String)) × Nat :=
  match acc.1 with
  | some _ => acc
  | none => (some (f e), acc.2 + 1)

/-- The promise's latch: fold the events, keeping the first settlement and
counting how many events actually settled the promise (rather than being
ignored because it was already settled). -/
def settleOnce (f : GsfkEvent → Except ErrValue (Option String))
    (events : List GsfkEvent) : Option (Except ErrValue (Option String)) × Nat :=
  events.foldl (settleStep f) (none, 0)

/-- `_getSecretForKey(apiKey)`: with no delegate configured it rejects
immediately with `missingDelegateError` (ignoring all events); otherwise
its value is the first settlement among the run's events (`none` = the
promise is still pending, possible only when no event occurred). -/
def getSecretForKey (hasDelegate : Bool) (apiKey secondsText : String)
    (events : List GsfkEvent) : Option (Except ErrValue (Option String)) :=
  if hasDelegate then (settleOnce (eventSettlement apiKey secondsText) events).1
  else some (.error missingDelegateError)

/-- The rejection values a delegate settlement event carries into the
promise (as opposed to values `Server.js` constructs itself). -/
def delegateErrorValues : GsfkEvent → List ErrValue
  | .callbackSettle e _ => [e]
  | .promiseReject e => [e]
  | _ => []

/-!
## The constructor

`Server.js`'s constructor normalizes the `settings` object.  JS property
values are modelled by `JsVal` (enough of the `typeof` lattice for the
checks the constructor makes), absent properties by `Option.none`.
-/

/-- A JavaScript value as the constructor's `typeof` checks see it. -/
inductive JsVal where
  | num : Int → JsVal
  | strv : String → JsVal
  | boolean : Bool → JsVal
  | func : JsVal
  | other : JsVal
deriving DecidableEq, Repr

/-- The `settings` object: each recognized property is present or absent. -/
structure SettingsObj where
  verbose : Option JsVal := none
  secretForKeyTimeout : Option JsVal := none
  permittedTimestampSkew : Option JsVal := none
  bodySizeLimit : Option JsVal := none
  secretForKey : Option JsVal := none
deriving DecidableEq, Repr

/-- `true` iff the optional property is present with a number value
(JS `hasOwnProperty && typeof === number`). -/
def isNumVal : Option JsVal → Bool
  | some (.num _) => true
  | _ => false

/-- `true` iff the optional property is present with a string value. -/
def isStrVal : Option JsVal → Bool
  | some (.strv _) => true
  | _ => false

/-- The constructor's settings normalization: an `undefined` settings
argument becomes `{}`; `verbose` defaults to `false` when absent;
`secretForKeyTimeout` becomes `10000` when absent or not a number;
`permittedTimestampSkew` becomes `60000` when absent or not a number;
`bodySizeLimit` becomes `"5mb"` when absent or not a string. -/
def applyDefaults (settings : Option SettingsObj) : SettingsObj :=
  let s := match settings with
    | none => ({} : SettingsObj)
    | some s => s
  let s := match s.verbose with
    | none => { s with verbose := some (.boolean false) }
    | some _ => s
  let s := if isNumVal s.secretForKeyTimeout then s
    else { s with secretForKeyTimeout := some (.num 10000) }
  let s := if isNumVal s.permittedTimestampSkew then s
    else { s with permittedTimestampSkew := some (.num 60000) }
  let s := if isStrVal s.bodySizeLimit then s
    else { s with bodySizeLimit := some (.strv "5mb") }
  s

/-- The constructor sets the instance's `secretForKey` delegate only when
the supplied setting is a function. -/
def constructedSecretForKey (s : SettingsObj) : Option JsVal :=
  match s.secretForKey with
  | some .func => some .func
  | _ => none

/-!
## Result predicates and concrete fixtures
-/

/-- `true` iff the promise rejected with an object whose `code` is `c`. -/
def rejectsWithCode : AuthResult → String → Bool
  | .rejected e, c => errCode e == some c
  | .resolved _ _ _, _ => false

/-- `true` iff the promise resolved. -/
def isResolved : AuthResult → Bool
  | .resolved _ _ _ => true
  | .rejected _ => false

/-- A concrete platform instantiation used by the concrete evaluations:
every date parses to epoch `0`, the URL has no query, and every signing
request produces the digest `"goodsig"` under the single supported
algorithm `"sha256"`. -/
def testPlatform : Platform where
  parseDate := fun _ => some 0
  urlPathname := fun _ => "/items"
  urlQuery := fun _ => none
  parseQueryString := fun _ => []
  canonicalize := fun _ _ _ _ _ => "canonical"
  sign := fun _ _ _ => "goodsig"
  algorithms := ["sha256"]
  toUTCString := fun _ => "NOW"

/-- A concrete request carrying an API key header, a well-formed
authorization header matching `testPlatform`'s digest, and a date header. -/
def baseRequest : Request where
  method := "GET"
  url := "/items"
  headers := [("x-api-key", "KEY"),
              ("authorization", "signature sha256 goodsig"),
              ("date", "Tue, 20 Apr 2016 18:48:24 GMT")]
  query := none
  rawBody := none
  streamData := ""
  body := none
  authenticated := false
  apiKey := none
  secret := none
  signature := none
  signatureExpected := none
  extra := "untouched"

/-- A secret lookup that always resolves with the secret `"SECRET"`. -/
def gsfkOk : String → Except ErrValue (Option String) := fun _ => .ok (some "SECRET")

/-- `testPlatform` with every date header parsing to epoch millisecond
`200000`. -/
def futureDatePlatform : Platform :=
  { testPlatform with parseDate := fun _ => some 200000 }

/-- `baseRequest` with a four-component authorization header whose first
three components are valid. -/
def fourTokenRequest : Request :=
  { baseRequest with
      headers := [("x-api-key", "KEY"),
                  ("authorization", "signature sha256 goodsig extra"),
                  ("date", "Tue, 20 Apr 2016 18:48:24 GMT")] }

/-- `testPlatform` with every date header failing to parse (Invalid Date). -/
def invalidDatePlatform : Platform :=
  { testPlatform with parseDate := fun _ => none }

/-- `baseRequest` with a two-component authorization header. -/
def twoTokenRequest : Request :=
  { baseRequest with
      headers := [("x-api-key", "KEY"),
                  ("authorization", "signature sha256"),
                  ("date", "Tue, 20 Apr 2016 18:48:24 GMT")] }

/-- A request with no `x-api-key` header but a `query` property holding an
`apiKey` member. -/
def queryRequest : Request :=
  { baseRequest with
      headers := [("authorization", "signature sha256 goodsig"),
                  ("date", "Tue, 20 Apr 2016 18:48:24 GMT")],
      query := some [("apiKey", "QK")] }

/-- `baseRequest` with a presented signature that does not match the
recomputed digest. -/
def badSigRequest : Request :=
  { baseRequest with
      headers := [("x-api-key", "KEY"),
                  ("authorization", "signature sha256 badsig"),
                  ("date", "Tue, 20 Apr 2016 18:48:24 GMT")] }

/-- A settings object carrying numeric values for both recognized numeric
options. -/
def numericSettings : SettingsObj :=
  { secretForKeyTimeout := some (.num 1234),
    permittedTimestampSkew := some (.num 5678) }

/-- The `code` strings `Server.js` itself attaches to the rejections it
constructs. -/
def internalCodes : List String :=
  ["API_KEY_MISSING", "API_KEY_UNRECOGNIZED", "INTERNAL_ERROR_SECRET_DISCOVERY",
   "INTERNAL_ERROR_SECRET_TIMEOUT", "AUTHORIZATION_HEADER_MISSING",
   "DATE_HEADER_MISSING", "DATE_HEADER_INVALID", "AUTHORIZATION_HEADER_INVALID",
   "HMAC_ALGORITHM_INVALID", "SIGNATURE_INVALID"]

/-!
## Helper lemmas

`authenticate` applies `getApiKey` and the header lookups to the request
after its annotation fields were written; these rewrites record that those
reads only depend on fields the annotations never touch.
-/

theorem getApiKey_set_authenticated (P : Platform) (r : Request) (b : Bool) :
    getApiKey P { r with authenticated := b } = getApiKey P r := rfl

theorem getApiKey_set_body (P : Platform) (r : Request) (b : Option String) :
    getApiKey P { r with body := b } = getApiKey P r := rfl

theorem getApiKey_set_body_auth (P : Platform) (r : Request) (b : Option String)
    (a : Bool) :
    getApiKey P { r with body := b, authenticated := a } = getApiKey P r := rfl

theorem settleStep_settled (f : GsfkEvent → Except ErrValue (Option String))
    (o : Except ErrValue (Option String)) (n : Nat) (events : List GsfkEvent) :
    events.foldl (settleStep f) (some o, n) = (some o, n) := by
  induction events with
  | nil => rfl
  | cons e es ih => exact ih

theorem settleOnce_cons (f : GsfkEvent → Except ErrValue (Option String))
    (e : GsfkEvent) (events : List GsfkEvent) :
    settleOnce f (e :: events) = (some (f e), 1) := by
  simp only [settleOnce, List.foldl]
  exact settleStep_settled f (f e) 1 events

theorem mapSecretOutcome_error_coded (apiKey : String)
    (gsfk : String → Except ErrValue (Option String)) (e : ErrValue)
    (h : mapSecretOutcome apiKey (gsfk apiKey) = .error e) :
    (∃ c, errCode e = some c ∧ c ∈ internalCodes) ∨ ∃ k, gsfk k = .error e := by
  rcases hg : gsfk apiKey with err | s
  · rw [hg] at h
    simp only [mapSecretOutcome, Except.error.injEq] at h
    by_cases hu : err = .undefined
    · rw [if_pos hu] at h
      exact Or.inl ⟨"INTERNAL_ERROR_SECRET_DISCOVERY", by rw [← h]; rfl, by decide⟩
    · rw [if_neg hu] at h
      subst h
      exact Or.inr ⟨apiKey, hg⟩
  · rw [hg] at h
    rcases s with _ | sv
    · simp only [mapSecretOutcome, Except.error.injEq] at h
      exact Or.inl ⟨"API_KEY_UNRECOGNIZED", by rw [← h]; rfl, by decide⟩
    · simp [mapSecretOutcome] at h

/-- C7 helper: `_getSecretForKey` with a delegate returns the settlement of
the first event. -/
theorem getSecretForKey_head (apiKey secondsText : String)
    (e : GsfkEvent) (events : List GsfkEvent) :
    getSecretForKey true apiKey secondsText (e :: events)
      = some (eventSettlement apiKey secondsText e) := by
  simp [getSecretForKey, settleOnce_cons]

end SimpleHMACAuth

namespace SimpleHMACAuth

/-!
## Claim theorems
-/

/-- C4: invariant of every `authenticate` run — on every rejection path the
request's `authenticated` flag is still `false`, and the flag is `true`
exactly when the promise resolved, which happens only with the presented
signature equal to the recomputed one (the resolved signature is the
value recorded in `signatureExpected`). -/
theorem authenticate_no_partial_state (P : Platform) (skew now : Int)
    (gsfk : String → Except ErrValue (Option String))
    (req : Request) (data : BodyArg) :
    (∀ e : ErrValue, (authenticate P skew now gsfk req data).2 = .rejected e →
        (authenticate P skew now gsfk req data).1.authenticated = false)
    ∧ ((authenticate P skew now gsfk req data).1.authenticated = true →
        ∃ k s sig, (authenticate P skew now gsfk req data).2 = .resolved k s sig
          ∧ (authenticate P skew now gsfk req data).1.signatureExpected = some sig) := by
  cases data <;>
    simp only [authenticate, resolveBody] <;>
    (repeat' split) <;> simp_all

/-- C4 witness: a concrete rejected run ends with `authenticated = false`,
and a concrete resolved run has the flag true with matching signatures. -/
theorem authenticate_no_partial_state_witness :
    (authenticate testPlatform 60000 0 gsfkOk { baseRequest with headers := [] }
        .undefined).1.authenticated = false :=
  (authenticate_no_partial_state testPlatform 60000 0 gsfkOk
      { baseRequest with headers := [] } .undefined).1 apiKeyMissingError (by decide)

/-- C7: the `_getSecretForKey` promise settles exactly once — for every
delegate behaviour, modelled as the sequence of settlement events the JS
event loop delivers (timer firing, callback invocation, returned-promise
settlement), the first event alone determines the outcome, exactly one
event effectively settles the promise, every later event is ignored (also
when more events are appended), and with no event at all the promise stays
pending. -/
theorem getSecretForKey_settles_once (apiKey secondsText : String)
    (e : GsfkEvent) (events more : List GsfkEvent) :
    getSecretForKey true apiKey secondsText (e :: events)
        = some (eventSettlement apiKey secondsText e)
    ∧ (settleOnce (eventSettlement apiKey secondsText) (e :: events)).2 = 1
    ∧ settleOnce (eventSettlement apiKey secondsText) ((e :: events) ++ more)
        = settleOnce (eventSettlement apiKey secondsText) (e :: events)
    ∧ getSecretForKey true apiKey secondsText [] = none := by
  refine ⟨getSecretForKey_head apiKey secondsText e events, ?_, ?_, rfl⟩
  · simp [settleOnce_cons]
  · rw [List.cons_append, settleOnce_cons, settleOnce_cons]

/-- C1 counterexample: a correctly signed request whose date header parses
to 200000 ms while the server clock reads 0 ms has
`|now - requestTime| = 200000 > 60000`, yet `authenticate` resolves — the
code's freshness test is one-sided (`now - requestTime > skew`), so a
request from the future is never rejected, refuting the claimed
absolute-difference criterion. -/
theorem date_skew_counterexample :
    |(0 : Int) - 200000| > 60000
    ∧ (authenticate futureDatePlatform 60000 0 gsfkOk baseRequest .undefined).2
        = .resolved "KEY" "SECRET" "goodsig" :=
  ⟨by decide, by decide⟩

/-- C1 (amended): for every request that reaches the timestamp-freshness
step with a parseable date header, `authenticate` rejects with code
`DATE_HEADER_INVALID` exactly when the signed difference
`now - requestTime` exceeds `permittedTimestampSkew` — so a correctly
signed request older than the skew window is rejected, for every secret
and algorithm, while a date arbitrarily far in the future is not rejected
by this check. -/
theorem date_skew_rejection (P : Platform) (skew now t : Int)
    (gsfk : String → Except ErrValue (Option String))
    (req : Request) (data : BodyArg)
    (apiKey secret authHeader dateHeader : String)
    (hkey : getApiKey P req = some apiKey)
    (hsecret : gsfk apiKey = .ok (some secret))
    (hauth : hlookup "authorization" req.headers = some authHeader)
    (hdate : hlookup "date" req.headers = some dateHeader)
    (hparse : P.parseDate dateHeader = some t) :
    rejectsWithCode (authenticate P skew now gsfk req data).2 "DATE_HEADER_INVALID"
      = true ↔ now - t > skew := by
  cases data <;>
    simp only [authenticate, resolveBody, getApiKey_set_authenticated,
      getApiKey_set_body, getApiKey_set_body_auth, hkey, hsecret,
      mapSecretOutcome] <;>
    simp only [hauth, hdate, hparse] <;>
    (repeat' split) <;>
    simp_all [rejectsWithCode, errCode, dateInvalidError, authMissingError,
      dateMissingError, authFormatError, authLabelError, algInvalidError,
      signatureInvalidError]

/-- C1 witness: at a concrete stale request (date parses to 0 ms, server
clock at 100000 ms, skew 60000 ms) the characterization applies and yields
a `DATE_HEADER_INVALID` rejection. -/
theorem date_skew_rejection_witness :
    rejectsWithCode
      (authenticate testPlatform 60000 100000 gsfkOk baseRequest .undefined).2
      "DATE_HEADER_INVALID" = true :=
  (date_skew_rejection testPlatform 60000 100000 0 gsfkOk baseRequest .undefined
    "KEY" "SECRET" "signature sha256 goodsig" "Tue, 20 Apr 2016 18:48:24 GMT"
    (by decide) rfl (by decide) (by decide) rfl).mpr (by decide)

/-- C10: a date header that does not parse (`new Date` yields an Invalid
Date, `NaN`) never triggers `DATE_HEADER_INVALID` — the `NaN > skew`
comparison is false — and the run proceeds to authorization-header parsing
and signature verification: it resolves or fails only with one of the
post-timestamp codes. -/
theorem invalid_date_skips_freshness (P : Platform) (skew now : Int)
    (gsfk : String → Except ErrValue (Option String))
    (req : Request) (data : BodyArg)
    (apiKey secret authHeader dateHeader : String)
    (hkey : getApiKey P req = some apiKey)
    (hsecret : gsfk apiKey = .ok (some secret))
    (hauth : hlookup "authorization" req.headers = some authHeader)
    (hdate : hlookup "date" req.headers = some dateHeader)
    (hparse : P.parseDate dateHeader = none) :
    rejectsWithCode (authenticate P skew now gsfk req data).2 "DATE_HEADER_INVALID"
        = false
    ∧ (isResolved (authenticate P skew now gsfk req data).2 = true
       ∨ rejectsWithCode (authenticate P skew now gsfk req data).2
           "AUTHORIZATION_HEADER_INVALID" = true
       ∨ rejectsWithCode (authenticate P skew now gsfk req data).2
           "HMAC_ALGORITHM_INVALID" = true
       ∨ rejectsWithCode (authenticate P skew now gsfk req data).2
           "SIGNATURE_INVALID" = true) := by
  cases data <;>
    simp only [authenticate, resolveBody, getApiKey_set_authenticated,
      getApiKey_set_body, getApiKey_set_body_auth, hkey, hsecret,
      mapSecretOutcome] <;>
    simp only [hauth, hdate, hparse] <;>
    (repeat' split) <;>
    simp_all [rejectsWithCode, errCode, isResolved, authFormatError,
      authLabelError, algInvalidError, signatureInvalidError]

/-- C10 witness: a concrete request whose date header does not parse is
fully authenticated rather than rejected for staleness. -/
theorem invalid_date_skips_freshness_witness :
    rejectsWithCode
      (authenticate invalidDatePlatform 60000 999999999 gsfkOk baseRequest .undefined).2
      "DATE_HEADER_INVALID" = false :=
  (invalid_date_skips_freshness invalidDatePlatform 60000 999999999 gsfkOk
    baseRequest .undefined "KEY" "SECRET" "signature sha256 goodsig"
    "Tue, 20 Apr 2016 18:48:24 GMT" (by decide) rfl (by decide) (by decide) rfl).1

/-- C3 counterexample: `"signature sha256 goodsig extra"` does not split
into exactly three tokens, yet `authenticate` resolves the request —
`Server.js` only rejects when `split(' ')` yields fewer than three
components, ignoring everything after the third. -/
theorem authorization_parsing_counterexample :
    (splitChar ' ' "signature sha256 goodsig extra").length = 4
    ∧ (authenticate testPlatform 60000 0 gsfkOk fourTokenRequest .undefined).2
        = .resolved "KEY" "SECRET" "goodsig" :=
  ⟨by decide, by decide⟩

/-- C3 (amended): for every request reaching authorization-header parsing,
`authenticate` rejects with `AUTHORIZATION_HEADER_INVALID` exactly when
`split(' ')` yields fewer than three components or the first component is
not the literal `signature` (extra components beyond the third are
ignored); with at least three components, correct label, and a second
component outside the supported algorithm set it rejects with
`HMAC_ALGORITHM_INVALID`. -/
theorem authorization_parsing (P : Platform) (skew now : Int)
    (gsfk : String → Except ErrValue (Option String))
    (req : Request) (data : BodyArg)
    (apiKey secret authHeader dateHeader : String)
    (hkey : getApiKey P req = some apiKey)
    (hsecret : gsfk apiKey = .ok (some secret))
    (hauth : hlookup "authorization" req.headers = some authHeader)
    (hdate : hlookup "date" req.headers = some dateHeader)
    (hfresh : ∀ t : Int, P.parseDate dateHeader = some t → now - t ≤ skew) :
    (rejectsWithCode (authenticate P skew now gsfk req data).2
        "AUTHORIZATION_HEADER_INVALID" = true
      ↔ ((splitChar ' ' authHeader).length < 3
          ∨ (splitChar ' ' authHeader).headD "" ≠ "signature"))
    ∧ (rejectsWithCode (authenticate P skew now gsfk req data).2
        "HMAC_ALGORITHM_INVALID" = true
      ↔ (3 ≤ (splitChar ' ' authHeader).length
          ∧ (splitChar ' ' authHeader).headD "" = "signature"
          ∧ P.algorithms.contains ((splitChar ' ' authHeader).getD 1 "") = false)) := by
  have hst : (match P.parseDate dateHeader with
      | some requestTime => decide (now - requestTime > skew)
      | none => false) = false := by
    rcases hp : P.parseDate dateHeader with _ | t
    · rfl
    · exact decide_eq_false (by have := hfresh t hp; omega)
  cases data <;>
    simp only [authenticate, resolveBody, getApiKey_set_authenticated,
      getApiKey_set_body, getApiKey_set_body_auth, hkey, hsecret,
      mapSecretOutcome] <;>
    simp only [hauth, hdate, hst] <;>
    rcases hs : splitChar ' ' authHeader with _ | ⟨l, _ | ⟨a, _ | ⟨s3, rest⟩⟩⟩ <;>
    simp only [hs] <;>
    (repeat' split) <;>
    simp_all [rejectsWithCode, errCode, authFormatError, authLabelError,
      algInvalidError, signatureInvalidError]

/-- C3 witness: a concrete two-component header is rejected with
`AUTHORIZATION_HEADER_INVALID`. -/
theorem authorization_parsing_witness :
    rejectsWithCode
      (authenticate testPlatform 60000 0 gsfkOk twoTokenRequest .undefined).2
      "AUTHORIZATION_HEADER_INVALID" = true :=
  (authorization_parsing testPlatform 60000 0 gsfkOk twoTokenRequest .undefined
    "KEY" "SECRET" "signature sha256" "Tue, 20 Apr 2016 18:48:24 GMT"
    (by decide) rfl (by decide) (by decide)
    (fun t ht => by simp [testPlatform] at ht; omega)).1.mpr (by decide)

/-- C8: the API key comes from the `x-api-key` header when present;
otherwise from the `apiKey` member of `request.query` when the request has
a `query` property, else of the query string parsed from the request URL;
and when no key is found, `authenticate` rejects with `API_KEY_MISSING`
independently of the secret lookup (so the delegate is never consulted). -/
theorem api_key_extraction (P : Platform) (skew now : Int)
    (gsfk : String → Except ErrValue (Option String))
    (req : Request) (data : BodyArg) (v : String) (q : List (String × String)) :
    (hlookup "x-api-key" req.headers = some v → getApiKey P req = some v)
    ∧ (hlookup "x-api-key" req.headers = none → req.query = some q →
        getApiKey P req = hlookup "apiKey" q)
    ∧ (hlookup "x-api-key" req.headers = none → req.query = none →
        getApiKey P req = hlookup "apiKey"
          (match P.urlQuery req.url with
           | some qs => P.parseQueryString qs
           | none => []))
    ∧ (getApiKey P req = none →
        (∀ gsfk₂ : String → Except ErrValue (Option String),
          authenticate P skew now gsfk req data
            = authenticate P skew now gsfk₂ req data)
        ∧ (authenticate P skew now gsfk req data).2 = .rejected apiKeyMissingError
        ∧ errCode apiKeyMissingError = some "API_KEY_MISSING") := by
  refine ⟨?_, ?_, ?_, ?_⟩
  · intro h; simp [getApiKey, h]
  · intro h hq; simp [getApiKey, h, hq]
  · intro h hq; simp [getApiKey, h, hq]
  · intro h
    refine ⟨?_, ?_, rfl⟩
    · intro gsfk₂
      cases data <;>
        simp only [authenticate, resolveBody, getApiKey_set_authenticated,
          getApiKey_set_body, getApiKey_set_body_auth, h]
    · cases data <;>
        simp only [authenticate, resolveBody, getApiKey_set_authenticated,
          getApiKey_set_body, getApiKey_set_body_auth, h]

/-- C8 witness: a request with no `x-api-key` header takes its key from the
`query` property. -/
theorem api_key_extraction_witness :
    getApiKey testPlatform queryRequest = some "QK" :=
  ((api_key_extraction testPlatform 60000 0 gsfkOk queryRequest .undefined "u"
      [("apiKey", "QK")]).2.1 (by decide) rfl).trans (by decide)

/-- C2 counterexample: a callback-convention delegate signalling "key not
found" by `callback(null, undefined)` makes `_getSecretForKey` reject with
`null`, and `authenticate` then rejects with the bare value `null` — which
carries no `code` field at all, not `API_KEY_UNRECOGNIZED` as claimed (the
`API_KEY_UNRECOGNIZED` path is reachable only through the promise
convention). -/
theorem secret_resolution_counterexample :
    getSecretForKey true "KEY" "10" [.callbackSettle .null none]
        = some (.error .null)
    ∧ (authenticate testPlatform 60000 0
        (fun k => eventSettlement k "10" (.callbackSettle .null none))
        baseRequest .undefined).2 = .rejected .null
    ∧ errCode .null = none :=
  ⟨rfl, by decide, rfl⟩

/-- C2 (amended): the secret-resolution outcomes map to rejections as
follows — a promise-convention delegate resolving `undefined` gives
`API_KEY_UNRECOGNIZED`; the timer firing first gives
`INTERNAL_ERROR_SECRET_TIMEOUT`; a promise rejection or a callback
invocation whose error is truthy or whose secret is `undefined` passes the
delegate's error value through verbatim, except that the error value
`undefined` is replaced by `INTERNAL_ERROR_SECRET_DISCOVERY` — so the two
conventions are not uniform: a callback-convention `undefined` secret
rejects with the callback's error argument, never `API_KEY_UNRECOGNIZED`. -/
theorem secret_resolution_codes (P : Platform) (skew now : Int)
    (req : Request) (data : BodyArg)
    (apiKey secondsText : String) (e : GsfkEvent) (events : List GsfkEvent)
    (hkey : getApiKey P req = some apiKey) :
    getSecretForKey true apiKey secondsText (e :: events)
        = some (eventSettlement apiKey secondsText e)
    ∧ (e = .promiseResolve none →
        (authenticate P skew now (fun k => eventSettlement k secondsText e)
            req data).2 = .rejected (unrecognizedKeyError apiKey))
    ∧ (e = .timeout →
        (authenticate P skew now (fun k => eventSettlement k secondsText e)
            req data).2 = .rejected (secretTimeoutError apiKey secondsText))
    ∧ (∀ err : ErrValue, e = .promiseReject err →
        (authenticate P skew now (fun k => eventSettlement k secondsText e)
            req data).2
          = .rejected (if err = .undefined then internalSecretError apiKey else err))
    ∧ (∀ (err : ErrValue) (s : Option String),
        e = .callbackSettle err s → (truthy err = true ∨ s = none) →
        (authenticate P skew now (fun k => eventSettlement k secondsText e)
            req data).2
          = .rejected (if err = .undefined then internalSecretError apiKey else err)) := by
  refine ⟨getSecretForKey_head apiKey secondsText e events, ?_, ?_, ?_, ?_⟩
  · rintro rfl
    cases data <;>
      simp only [authenticate, resolveBody, getApiKey_set_authenticated,
        getApiKey_set_body, getApiKey_set_body_auth, hkey, eventSettlement,
        mapSecretOutcome]
  · rintro rfl
    cases data <;>
      simp only [authenticate, resolveBody, getApiKey_set_authenticated,
        getApiKey_set_body, getApiKey_set_body_auth, hkey, eventSettlement,
        mapSecretOutcome] <;>
      simp [secretTimeoutError]
  · rintro err rfl
    cases data <;>
      simp only [authenticate, resolveBody, getApiKey_set_authenticated,
        getApiKey_set_body, getApiKey_set_body_auth, hkey, eventSettlement,
        mapSecretOutcome]
  · rintro err s rfl hc
    have hs : eventSettlement apiKey secondsText (.callbackSettle err s)
        = .error err := by
      simp only [eventSettlement]
      rw [if_pos hc]
    cases data <;>
      simp only [authenticate, resolveBody, getApiKey_set_authenticated,
        getApiKey_set_body, getApiKey_set_body_auth, hkey, hs,
        mapSecretOutcome]

/-- C2 witness: the concrete callback `callback(null, undefined)` rejects
the authentication with `null`. -/
theorem secret_resolution_codes_witness :
    (authenticate testPlatform 60000 0
        (fun k => eventSettlement k "10" (.callbackSettle .null none))
        baseRequest .undefined).2 = .rejected .null := by
  have h := (secret_resolution_codes testPlatform 60000 0 baseRequest .undefined
      "KEY" "10" (.callbackSettle .null none) [] (by decide)).2.2.2.2
      .null none rfl (Or.inr rfl)
  simpa using h

/-- C5 counterexample: with no `secretForKey` delegate configured,
`_getSecretForKey` rejects (immediately, whatever events occur) with a
structured object that has `message` and `details` but no `code` field,
and `authenticate` rejects with that same code-less object — refuting the
claim that every failure path carries a machine-readable `code`. -/
theorem rejection_structure_counterexample :
    getSecretForKey false "KEY" "10" [] = some (.error missingDelegateError)
    ∧ (authenticate testPlatform 60000 0 (fun _ => .error missingDelegateError)
        baseRequest .undefined).2 = .rejected missingDelegateError
    ∧ errCode missingDelegateError = none :=
  ⟨rfl, by decide, rfl⟩

/-- C5 (amended): with no delegate configured `_getSecretForKey` rejects
immediately (independently of any events) with the structured
missing-delegate object, which carries no `code`; and every rejection of
`authenticate` either is an object carrying one of the fixed
machine-readable codes or is a value the secret lookup rejected with,
passed through verbatim (such pass-through values — delegate errors, or
the code-less missing-delegate object — need not carry a code). -/
theorem rejection_structure (P : Platform) (skew now : Int)
    (req : Request) (data : BodyArg)
    (gsfk : String → Except ErrValue (Option String)) :
    (∀ (apiKey secondsText : String) (events : List GsfkEvent),
        getSecretForKey false apiKey secondsText events
          = some (.error missingDelegateError))
    ∧ errCode missingDelegateError = none
    ∧ (∀ e : ErrValue, (authenticate P skew now gsfk req data).2 = .rejected e →
        (∃ c, errCode e = some c ∧ c ∈ internalCodes)
        ∨ ∃ k, gsfk k = .error e) := by
  refine ⟨fun _ _ _ => rfl, rfl, ?_⟩
  intro e he
  cases data <;>
    simp only [authenticate, resolveBody] at he <;>
    (repeat' split at he) <;>
    simp only [AuthResult.rejected.injEq] at he <;>
    first
      | exact absurd he (by simp)
      | (subst he
         first
           | exact Or.inl ⟨_, rfl, by decide⟩
           | exact mapSecretOutcome_error_coded _ _ _ (by assumption))

/-- C5 witness: the API-key-missing rejection carries the code
`API_KEY_MISSING`, which is in the fixed code list. -/
theorem rejection_structure_witness :
    ∃ c, errCode apiKeyMissingError = some c ∧ c ∈ internalCodes :=
  ((rejection_structure testPlatform 60000 0
      { baseRequest with headers := [] } .undefined gsfkOk).2.2
    apiKeyMissingError (by decide)).resolve_right
    (by rintro ⟨k, hk⟩; simp [gsfkOk] at hk)

/-- C6 counterexample: invoked with the body-draining sentinel `true`,
`authenticate` also mutates `request.body` (a sixth field, beyond the five
the claim lists); and on a signature mismatch the `signature` field
records the recomputed digest, not the presented one — the observed
signature is never stored. -/
theorem authenticate_frame_counterexample :
    ({ baseRequest with rawBody := some "xyz" } : Request).body = none
    ∧ (authenticate testPlatform 60000 0 gsfkOk
        { baseRequest with rawBody := some "xyz" } .sentinelTrue).1.body
        = some "xyz"
    ∧ hlookup "authorization" badSigRequest.headers
        = some "signature sha256 badsig"
    ∧ (authenticate testPlatform 60000 0 gsfkOk badSigRequest .undefined).1.signature
        = some "goodsig" :=
  ⟨rfl, by decide, by decide, by decide⟩

/-- C6 (amended): the only request fields `authenticate` mutates are
`apiKey`, `secret`, `authenticated`, the two signature fields — both of
which are set to the recomputed signature — and `body` when the
body-draining sentinel `true` is passed; every other field is unchanged. -/
theorem authenticate_frame (P : Platform) (skew now : Int)
    (gsfk : String → Except ErrValue (Option String))
    (req : Request) (data : BodyArg) (r2 : Request)
    (hr : r2 = (authenticate P skew now gsfk req data).1) :
    r2.method = req.method ∧ r2.url = req.url ∧ r2.headers = req.headers
    ∧ r2.query = req.query ∧ r2.rawBody = req.rawBody
    ∧ r2.streamData = req.streamData ∧ r2.extra = req.extra
    ∧ (data ≠ .sentinelTrue → r2.body = req.body)
    ∧ ((r2.signature = req.signature ∧ r2.signatureExpected = req.signatureExpected)
        ∨ ∃ c, r2.signature = some c ∧ r2.signatureExpected = some c) := by
  subst hr
  cases data <;>
    simp only [authenticate, resolveBody] <;>
    (repeat' split) <;> simp_all

/-- C6 witness: on a concrete run the headers are untouched and, with a
plain string body argument, so is `body`. -/
theorem authenticate_frame_witness :
    (authenticate testPlatform 60000 0 gsfkOk baseRequest .undefined).1.headers
      = baseRequest.headers :=
  (authenticate_frame testPlatform 60000 0 gsfkOk baseRequest .undefined _ rfl).2.2.1

theorem applyDefaults_timeout_field (s : SettingsObj) :
    (applyDefaults (some s)).secretForKeyTimeout
      = if isNumVal s.secretForKeyTimeout then s.secretForKeyTimeout
        else some (.num 10000) := by
  simp only [applyDefaults]
  (repeat' split) <;> simp_all

theorem applyDefaults_skew_field (s : SettingsObj) :
    (applyDefaults (some s)).permittedTimestampSkew
      = if isNumVal s.permittedTimestampSkew then s.permittedTimestampSkew
        else some (.num 60000) := by
  simp only [applyDefaults]
  (repeat' split) <;> simp_all

/-- C9: the constructor's defaults — with no settings object, or when the
recognized option (`secretForKeyTimeout` / `permittedTimestampSkew`) is
absent or not a number, the constructed settings hold 10000 ms and
60000 ms respectively; a supplied numeric value overrides the default. -/
theorem constructor_defaults (s : SettingsObj) :
    ((applyDefaults none).secretForKeyTimeout = some (.num 10000)
      ∧ (applyDefaults none).permittedTimestampSkew = some (.num 60000))
    ∧ (isNumVal s.secretForKeyTimeout = false →
        (applyDefaults (some s)).secretForKeyTimeout = some (.num 10000))
    ∧ (isNumVal s.permittedTimestampSkew = false →
        (applyDefaults (some s)).permittedTimestampSkew = some (.num 60000))
    ∧ (∀ v : Int, s.secretForKeyTimeout = some (.num v) →
        (applyDefaults (some s)).secretForKeyTimeout = some (.num v))
    ∧ (∀ v : Int, s.permittedTimestampSkew = some (.num v) →
        (applyDefaults (some s)).permittedTimestampSkew = some (.num v)) := by
  refine ⟨⟨by decide, by decide⟩, ?_, ?_, ?_, ?_⟩
  · intro h; rw [applyDefaults_timeout_field, h]; rfl
  · intro h; rw [applyDefaults_skew_field, h]; rfl
  · intro v hv; rw [applyDefaults_timeout_field, hv]; rfl
  · intro v hv; rw [applyDefaults_skew_field, hv]; rfl

/-- C9 witness: numeric values 1234/5678 are kept, and the no-number case
takes the default. -/
theorem constructor_defaults_witness :
    (applyDefaults (some numericSettings)).secretForKeyTimeout = some (.num 1234)
    ∧ (applyDefaults (some numericSettings)).permittedTimestampSkew = some (.num 5678)
    ∧ (applyDefaults none).secretForKeyTimeout = some (.num 10000) :=
  ⟨(constructor_defaults numericSettings).2.2.2.1 1234 rfl,
   (constructor_defaults numericSettings).2.2.2.2 5678 rfl,
   (constructor_defaults numericSettings).1.1⟩

end SimpleHMACAuth
